import Mathlib

/-!
Shallow embedding of the travel-agent core modules (`core/weather.py`,
`core/flights.py`, `core/hotels.py`, `core/synthesis.py`,
`core/user_profile.py`, `core/models.py`).

Conventions of the embedding:
* Python `str` is modelled as `List Char` (`Str`), so that every string
  operation used by the code (lowercasing, lexicographic comparison,
  `split`, `in`, `join`, f-string concatenation) is an executable,
  kernel-reducible Lean function defined below with Python's semantics.
* Python `int` is modelled as `Int` (`//` becomes `Int.fdiv`, Python's
  floor division); day counts and list lengths are `Nat` where the source
  guarantees non-negativity.
* Python `float` arithmetic (the score accumulators, hotel ratings) is
  modelled as exact rational arithmetic over `ℚ`; every constant involved
  (1.5, 0.3, 12.5, divisions by 5) is an exact decimal.
* Python dataclasses become structures with the same field names.
* `os.environ.get("USE_LIVE_WEATHER", ...)` in `analyze_weather` is made
  an explicit boolean parameter `useLive` of the embedded function.
* fallible operations (`min` of a possibly-empty list, `list[0]`)
  appearing in `synthesize_recommendation` return `Option`.
-/

namespace Travel

/-- Python strings, modelled as lists of characters. -/
abbrev Str := List Char

/-- Coerce a Lean string literal to the `Str` model. -/
abbrev str (s : String) : Str := s.data

/-- Decimal digits of a natural number (Python `str(n)` for `n ≥ 0`). -/
def natDigits (n : Nat) : Str := Nat.toDigits 10 n

/-- Python `str(i)` for an integer. -/
def intStr : Int → Str
  | .ofNat n => natDigits n
  | .negSucc n => '-' :: natDigits (n + 1)

/-- Rendering of a Python float with at most one decimal place (all guest
ratings in the repository are one-decimal values such as `4.3`); other
rationals fall back to a `num/den` rendering.  Used only inside narrative
strings, never in any score or comparison. -/
def ratStr (q : ℚ) : Str :=
  if q.den = 1 then intStr q.num ++ str ".0"
  else if (q * 10).den = 1 then
    intStr ((q * 10).num.fdiv 10) ++ str "." ++ natDigits ((q * 10).num - ((q * 10).num.fdiv 10) * 10).toNat
  else intStr q.num ++ str "/" ++ natDigits q.den

/-- Python lexicographic `<` on strings (by code point). -/
def strLt : Str → Str → Bool
  | [], [] => false
  | [], _ :: _ => true
  | _ :: _, [] => false
  | a :: as, b :: bs =>
    if a.val < b.val then true
    else if b.val < a.val then false
    else strLt as bs

/-- Python lexicographic `<=` on strings. -/
def strLe (a b : Str) : Bool := strLt a b || a == b

/-- Python `needle in hay` for strings (substring containment). -/
def strContains (needle : Str) : Str → Bool
  | [] => needle.isEmpty
  | c :: rest => needle.isPrefixOf (c :: rest) || strContains needle rest

/-- The characters of `s` before the first occurrence of `sep`
(`s.split(sep)[0]` when `sep` occurs in `s`). -/
def beforeFirst (sep : Str) : Str → Str
  | [] => []
  | c :: rest =>
    if sep.isPrefixOf (c :: rest) then []
    else c :: beforeFirst sep rest

/-- Python `s.split(sep)[0]`: the part before the first occurrence of
`sep`, or all of `s` when `sep` does not occur. -/
def pySplitHead (sep s : Str) : Str :=
  if strContains sep s then beforeFirst sep s else s

/-- Python `l[i]` with support for negative indices; out-of-range access
(which would raise in Python and is never exercised by the embedded code)
yields the supplied default. -/
def pyGet (l : List α) (i : Int) (d : α) : α :=
  if 0 ≤ i then l.getD i.toNat d
  else l.getD (l.length - (-i).toNat) d

/-- Python `min` over a list of integers (`none` on the empty list). -/
def listMinInt : List Int → Option Int
  | [] => none
  | x :: xs => some (xs.foldl min x)

/-- Python `str.lower`, restricted to ASCII case mapping (every profile
key in the repository is ASCII). -/
def pyLower (s : Str) : Str := s.map Char.toLower

/-! ## Data model (`core/models.py`) -/

/-- Embeds the `UserProfile` dataclass. -/
structure UserProfile where
  name : Str
  preferred_temp_min_f : Int
  preferred_temp_max_f : Int
  airfare_budget_soft : Int
  airfare_budget_hard : Int
  hotel_budget_min : Int
  hotel_budget_max : Int
  preferred_hotel_brands : List Str
  trip_length_nights : Nat
  flexibility_days : Nat
  comfort_priority : Int
deriving DecidableEq

/-- Embeds the `DayForecast` dataclass. -/
structure DayForecast where
  date : Str
  high_f : Int
  low_f : Int
  condition : Str
  precipitation_pct : Int
  wind_mph : Int
  is_storm_risk : Bool
deriving DecidableEq, Inhabited

/-- Embeds the `WeatherSummary` dataclass. -/
structure WeatherSummary where
  destination : Str
  period : Str
  avg_high_f : Int
  avg_low_f : Int
  rainy_days : Nat
  storm_risk_days : Nat
  best_window : Str
  worst_window : Str
  summary : Str
  daily_forecasts : List DayForecast
deriving DecidableEq

/-- Embeds the `FlightOption` dataclass. -/
structure FlightOption where
  airline : Str
  departure_date : Str
  return_date : Str
  price_usd : Int
  departure_time : Str
  arrival_time : Str
  stops : Int
  duration_hours : ℚ
  is_red_eye : Bool
deriving DecidableEq

/-- Embeds the `FlightSearchResult` dataclass. -/
structure FlightSearchResult where
  origin : Str
  destination : Str
  search_window : Str
  cheapest_price : Int
  average_price : Int
  options : List FlightOption
  summary : Str
deriving DecidableEq

/-- Embeds the `HotelOption` dataclass. -/
structure HotelOption where
  name : Str
  brand : Str
  nightly_rate : Int
  total_cost : Int
  rating : ℚ
  location : Str
  has_storm_discount : Bool
  discount_reason : Option Str
deriving DecidableEq

/-- Embeds the `HotelSearchResult` dataclass. -/
structure HotelSearchResult where
  destination : Str
  check_in : Str
  check_out : Str
  options : List HotelOption
  summary : Str
deriving DecidableEq

/-- Embeds the `TravelRecommendation` dataclass. -/
structure TravelRecommendation where
  recommended_window : Str
  confidence : Str
  summary : Str
  reasoning : Str
  alternative_windows : List Str
  rejected_options : List Str
  weather_summary : Str
  flight_summary : Str
  hotel_summary : Str
deriving DecidableEq

/-! ## Profile storage (`core/user_profile.py`) -/

/-- The `"alex"` entry of `_MOCK_PROFILES`. -/
def alexProfile : UserProfile :=
  { name := str "Alex Chen"
    preferred_temp_min_f := 72
    preferred_temp_max_f := 85
    airfare_budget_soft := 450
    airfare_budget_hard := 650
    hotel_budget_min := 120
    hotel_budget_max := 250
    preferred_hotel_brands := [str "Marriott", str "Hilton"]
    trip_length_nights := 7
    flexibility_days := 5
    comfort_priority := 6 }

/-- The `"jordan"` entry of `_MOCK_PROFILES`. -/
def jordanProfile : UserProfile :=
  { name := str "Jordan Rivera"
    preferred_temp_min_f := 68
    preferred_temp_max_f := 80
    airfare_budget_soft := 600
    airfare_budget_hard := 900
    hotel_budget_min := 200
    hotel_budget_max := 400
    preferred_hotel_brands := [str "Hyatt", str "Four Seasons"]
    trip_length_nights := 5
    flexibility_days := 2
    comfort_priority := 9 }

/-- The `"sam"` entry of `_MOCK_PROFILES`. -/
def samProfile : UserProfile :=
  { name := str "Sam Patel"
    preferred_temp_min_f := 75
    preferred_temp_max_f := 90
    airfare_budget_soft := 800
    airfare_budget_hard := 1200
    hotel_budget_min := 300
    hotel_budget_max := 600
    preferred_hotel_brands := [str "Four Seasons", str "Ritz-Carlton"]
    trip_length_nights := 10
    flexibility_days := 7
    comfort_priority := 8 }

/-- The module-level `_MOCK_PROFILES` dictionary, as an association list in
insertion order. -/
def MOCK_PROFILES : List (Str × UserProfile) :=
  [(str "alex", alexProfile), (str "jordan", jordanProfile), (str "sam", samProfile)]

/-- Embeds `get_profile`: `_MOCK_PROFILES.get(user_id.lower())`. -/
def get_profile (user_id : Str) : Option UserProfile :=
  MOCK_PROFILES.lookup (pyLower user_id)

/-! ## Weather analysis (`core/weather.py`) -/

/-- The per-day contribution to `_score_weather_window`'s accumulator:
temperature alignment, storm penalty, rain penalty and wind bonus/penalty,
exactly as the four `score` updates in the source's loop body. -/
def dayScore (day : DayForecast) (profile : UserProfile) : ℚ :=
  (if profile.preferred_temp_min_f ≤ day.high_f ∧ day.high_f ≤ profile.preferred_temp_max_f
    then 10
    else
      -(((if day.high_f < profile.preferred_temp_min_f
          then profile.preferred_temp_min_f - day.high_f
          else day.high_f - profile.preferred_temp_max_f) : ℚ) * 1.5))
  + (if day.is_storm_risk then -(5 * (profile.comfort_priority : ℚ)) else 0)
  + (if day.precipitation_pct > 40 then -(3 * ((profile.comfort_priority : ℚ) / 5)) else 0)
  + (if day.wind_mph > 20 then -5 else if day.wind_mph < 10 then 2 else 0)

/-- Embeds `_score_weather_window`: the accumulator starts at `0.0` and the
loop adds each day's contribution in order. -/
def score_weather_window (window : List DayForecast) (profile : UserProfile) : ℚ :=
  window.foldl (fun s day => s + dayScore day profile) 0

/-- The running-best state of `analyze_weather`'s scan, after the loop has
processed the start indices `0, 1, ..., m - 1` in ascending order:
`best_score` starts at `-999`, and index `i` replaces the incumbent exactly
when `score i > best_score`.  Returns `(best_score, best_start)`. -/
def bestLoop (score : Nat → ℚ) : Nat → ℚ × Nat
  | 0 => (-999, 0)
  | m + 1 =>
    if score m > (bestLoop score m).1 then (score m, m) else bestLoop score m

/-- The running-worst state of `analyze_weather`'s scan after processing
start indices `0, ..., m - 1`: `worst_score` starts at `999`, and index `i`
replaces the incumbent exactly when `score i < worst_score`. -/
def worstLoop (score : Nat → ℚ) : Nat → ℚ × Nat
  | 0 => (999, 0)
  | m + 1 =>
    if score m < (worstLoop score m).1 then (score m, m) else worstLoop score m

/-- Python `forecasts[i : i + L]`. -/
def windowAt (forecasts : List DayForecast) (i L : Nat) : List DayForecast :=
  (forecasts.drop i).take L

/-- The score of the window of length `trip_length_nights` starting at `i`,
as computed inside `analyze_weather`'s loop. -/
def windowScore (forecasts : List DayForecast) (profile : UserProfile) (i : Nat) : ℚ :=
  score_weather_window (windowAt forecasts i profile.trip_length_nights) profile

/-- The `(best_start, worst_start)` pair computed by `analyze_weather`:
`(0, 0)` when `n <= trip_len`, otherwise the result of the
`for i in range(n - trip_len)` scan. -/
def bestWorstStarts (forecasts : List DayForecast) (profile : UserProfile) : Nat × Nat :=
  let n := forecasts.length
  let L := profile.trip_length_nights
  if n ≤ L then (0, 0)
  else
    ((bestLoop (windowScore forecasts profile) (n - L)).2,
     (worstLoop (windowScore forecasts profile) (n - L)).2)

/-- Embeds `analyze_weather`.  The read of the `USE_LIVE_WEATHER`
environment variable at the `source_note` computation is made an explicit
boolean parameter `useLive`. -/
def analyze_weather (useLive : Bool) (forecasts : List DayForecast)
    (user_profile : UserProfile) (destination : Str) : WeatherSummary :=
  match forecasts with
  | [] =>
    { destination := destination
      period := str "N/A"
      avg_high_f := 0
      avg_low_f := 0
      rainy_days := 0
      storm_risk_days := 0
      best_window := str "N/A"
      worst_window := str "N/A"
      summary := str "No forecast data available."
      daily_forecasts := [] }
  | f0 :: rest =>
    let forecasts := f0 :: rest
    let total_high := (forecasts.map (·.high_f)).sum
    let total_low := (forecasts.map (·.low_f)).sum
    let n := forecasts.length
    let rainy_days := (forecasts.filter (fun f => f.precipitation_pct > 40)).length
    let storm_days := (forecasts.filter (·.is_storm_risk)).length
    let trip_len := user_profile.trip_length_nights
    let bw := bestWorstStarts forecasts user_profile
    let best_start := bw.1
    let worst_start := bw.2
    let best_window_start := (pyGet forecasts best_start f0).date
    let best_window_end := (pyGet forecasts (min ((best_start : Int) + trip_len - 1) ((n : Int) - 1)) f0).date
    let worst_window_start := (pyGet forecasts worst_start f0).date
    let worst_window_end := (pyGet forecasts (min ((worst_start : Int) + trip_len - 1) ((n : Int) - 1)) f0).date
    let source_note := if useLive then str "(live data from Open-Meteo)" else str "(mock data)"
    let part1 := str "Over the next " ++ natDigits n ++ str " days " ++ source_note ++ str ", "
      ++ destination ++ str " will see average highs of " ++ intStr (total_high.fdiv n)
      ++ str "°F and lows of " ++ intStr (total_low.fdiv n) ++ str "°F."
    let warnParts := if storm_days > 0 then
        [str "⚠ WARNING: " ++ natDigits storm_days
          ++ str " days have storm risk. Avoid the period around "
          ++ (pyGet forecasts worst_start f0).date ++ str "."]
      else []
    let bestPart := str "Best weather window for your preferences: "
      ++ best_window_start ++ str " to " ++ best_window_end ++ str "."
    let summary_parts := part1 :: warnParts ++ [bestPart]
    { destination := destination
      period := f0.date ++ str " to " ++ (pyGet forecasts (-1) f0).date
      avg_high_f := total_high.fdiv n
      avg_low_f := total_low.fdiv n
      rainy_days := rainy_days
      storm_risk_days := storm_days
      best_window := best_window_start ++ str " to " ++ best_window_end
      worst_window := worst_window_start ++ str " to " ++ worst_window_end
      summary := List.intercalate (str " ") summary_parts
      daily_forecasts := forecasts }

/-! ## Flight analysis (`core/flights.py`) -/

/-- The second element of `analyze_flights`' `summary_parts`: the
budget-tier narrative chosen by the `if under_soft / elif under_hard / else`
chain. -/
def flightBudgetNote (flights : List FlightOption) (user_profile : UserProfile) : Str :=
  let under_soft := flights.filter (fun f => f.price_usd ≤ user_profile.airfare_budget_soft)
  let under_hard := flights.filter (fun f => f.price_usd ≤ user_profile.airfare_budget_hard)
  if under_soft ≠ [] then
    natDigits under_soft.length ++ str " flights are under your ideal budget of $"
      ++ intStr user_profile.airfare_budget_soft ++ str "."
  else if under_hard ≠ [] then
    str "No flights under your ideal $" ++ intStr user_profile.airfare_budget_soft
      ++ str ", but " ++ natDigits under_hard.length ++ str " are within your hard limit of $"
      ++ intStr user_profile.airfare_budget_hard ++ str "."
  else
    str "⚠ All flights exceed your hard budget of $" ++ intStr user_profile.airfare_budget_hard
      ++ str ". Consider adjusting dates or accepting a connection."

/-- Embeds `analyze_flights`. -/
def analyze_flights (flights : List FlightOption) (user_profile : UserProfile) : FlightSearchResult :=
  match flights with
  | [] =>
    { origin := str "N/A"
      destination := str "N/A"
      search_window := str "N/A"
      cheapest_price := 0
      average_price := 0
      options := []
      summary := str "No flights found." }
  | f0 :: rest =>
    let flights := f0 :: rest
    let prices := flights.map (·.price_usd)
    let cheapest := (rest.map (·.price_usd)).foldl min f0.price_usd
    let maxPrice := (rest.map (·.price_usd)).foldl max f0.price_usd
    let average := prices.sum.fdiv flights.length
    let part1 := str "Found " ++ natDigits flights.length
      ++ str " flight options. Prices range from $" ++ intStr cheapest ++ str " to $"
      ++ intStr maxPrice ++ str " (avg $" ++ intStr average ++ str ")."
    let red_eyes := flights.filter (·.is_red_eye)
    let redParts :=
      match red_eyes with
      | [] => []
      | r0 :: rrest =>
        if user_profile.comfort_priority ≥ 7 then
          [str "Red-eye flights available from $"
            ++ intStr ((rrest.map (·.price_usd)).foldl min r0.price_usd)
            ++ str ", but given your high comfort priority, daytime flights are recommended."]
        else []
    { origin := f0.airline
      destination := str "OGG"
      search_window := f0.departure_date ++ str " to " ++ (pyGet flights (-1) f0).departure_date
      cheapest_price := cheapest
      average_price := average
      options := flights
      summary := List.intercalate (str " ") (part1 :: flightBudgetNote flights user_profile :: redParts) }

/-! ## Hotel evaluation (`core/hotels.py`) -/

/-- Embeds `_score_hotel`: the four sequential `score` updates written as a
sum of the four factor contributions. -/
def score_hotel (hotel : HotelOption) (profile : UserProfile) : ℚ :=
  (if profile.hotel_budget_min ≤ hotel.nightly_rate ∧ hotel.nightly_rate ≤ profile.hotel_budget_max
    then 30
    else if hotel.nightly_rate < profile.hotel_budget_min then 10
    else max 0 (25 - ((hotel.nightly_rate - profile.hotel_budget_max : Int) : ℚ) * 0.3))
  + (if hotel.brand ∈ profile.preferred_hotel_brands then 20 else 0)
  + max 0 ((hotel.rating - 3.0) * 12.5)
  + (if hotel.has_storm_discount ∧ profile.comfort_priority ≥ 7 then -15 else 0)

/-- Insert `a` into `l` so that `a` precedes the first element whose key is
strictly below `key a`; among equal keys, `a` (the earlier element of the
original list) stays first. -/
def insertDesc (key : α → ℚ) (a : α) : List α → List α
  | [] => [a]
  | b :: bs => if key a < key b then b :: insertDesc key a bs else a :: b :: bs

/-- Stable descending sort by `key`.  This is the extensional behaviour of
CPython's `list.sort(key=..., reverse=True)` (Timsort is stable, and
`reverse=True` preserves the original order of key-equal elements). -/
def stableSortDesc (key : α → ℚ) : List α → List α
  | [] => []
  | a :: as => insertDesc key a (stableSortDesc key as)

/-- First-occurrence deduplication; stands in for iterating a CPython `set`
built from a list (only used in the brand narrative, whose iteration order
CPython leaves unspecified). -/
def dedup : List Str → List Str
  | [] => []
  | b :: bs => b :: (dedup bs).filter (fun x => x ≠ b)

/-- Embeds `evaluate_hotels`. -/
def evaluate_hotels (hotels : List HotelOption) (user_profile : UserProfile) : HotelSearchResult :=
  match hotels with
  | [] =>
    { destination := str "Maui, HI"
      check_in := str "N/A"
      check_out := str "N/A"
      options := []
      summary := str "No hotels found." }
  | h0 :: _ =>
    let sorted_options := stableSortDesc (fun h => score_hotel h user_profile) hotels
    let in_budget := hotels.filter (fun h =>
      user_profile.hotel_budget_min ≤ h.nightly_rate ∧ h.nightly_rate ≤ user_profile.hotel_budget_max)
    let brand_matches := hotels.filter (fun h => h.brand ∈ user_profile.preferred_hotel_brands)
    let storm_discounted := hotels.filter (·.has_storm_discount)
    let part1 := str "Found " ++ natDigits hotels.length ++ str " hotels in Maui."
    let budgetParts :=
      match in_budget with
      | [] =>
        [str "⚠ No hotels fall within your $" ++ intStr user_profile.hotel_budget_min
          ++ str "–$" ++ intStr user_profile.hotel_budget_max ++ str "/night budget."]
      | b0 :: brest =>
        [natDigits in_budget.length ++ str " are within your $"
          ++ intStr user_profile.hotel_budget_min ++ str "–$"
          ++ intStr user_profile.hotel_budget_max ++ str "/night budget (range: $"
          ++ intStr ((brest.map (·.nightly_rate)).foldl min b0.nightly_rate) ++ str "–$"
          ++ intStr ((brest.map (·.nightly_rate)).foldl max b0.nightly_rate) ++ str "/night)."]
    let brandParts :=
      if brand_matches ≠ [] then
        [str "Your preferred brand(s) ("
          ++ List.intercalate (str ", ") (dedup (brand_matches.map (·.brand))) ++ str ") "
          ++ (if brand_matches.length > 1 then str "have" else str "has") ++ str " "
          ++ natDigits brand_matches.length ++ str " option(s) available."]
      else []
    let stormParts :=
      if storm_discounted ≠ [] then
        [str "⚠ " ++ natDigits storm_discounted.length
          ++ str " hotel(s) show storm-season discounts. Lower prices may reflect weather risk — consider carefully."]
      else []
    let top := sorted_options.headD h0
    let topPart := str "Top pick: " ++ top.name ++ str " (" ++ top.brand ++ str ") at $"
      ++ intStr top.nightly_rate ++ str "/night, rated " ++ ratStr top.rating ++ str "/5.0."
    { destination := str "Maui, HI"
      check_in := (sorted_options.headD h0).name
      check_out := str "N/A"
      options := sorted_options
      summary := List.intercalate (str " ")
        (part1 :: budgetParts ++ brandParts ++ stormParts ++ [topPart]) }

/-! ## Recommendation synthesis (`core/synthesis.py`) -/

/-- Embeds `_compute_confidence`. -/
def compute_confidence (weather_storm_days : Nat)
    (flight_ok flight_ideal hotel_ok hotel_ideal : Bool) : Str :=
  let score : Nat :=
    (if weather_storm_days = 0 then 3 else if weather_storm_days ≤ 2 then 1 else 0)
    + (if flight_ideal then 3 else if flight_ok then 1 else 0)
    + (if hotel_ideal then 3 else if hotel_ok then 1 else 0)
  if score ≥ 7 then str "High" else if score ≥ 4 then str "Medium" else str "Low"

/-- Embeds `_generate_alternatives`.  The source's early `break` once two
alternatives are collected yields the same list as collecting all
candidates in scan order and keeping the first two. -/
def generate_alternatives (weather : WeatherSummary) (flights : FlightSearchResult)
    (profile : UserProfile) : List Str :=
  match weather.daily_forecasts with
  | [] => []
  | _ :: _ =>
    let daily := weather.daily_forecasts
    let L := profile.trip_length_nights
    let best_start := pySplitHead (str " to ") weather.best_window
    let cands := (List.range (daily.length - L)).filterMap (fun i =>
      let window_start := (daily.getD i default).date
      if window_start = best_start then none
      else
        let window := (daily.drop i).take L
        let storms := (window.filter (·.is_storm_risk)).length
        let rain := (window.filter (fun d => d.precipitation_pct > 40)).length
        if storms = 0 ∧ rain ≤ 2 then
          some (window_start ++ str " to " ++ (pyGet daily ((i : Int) + L - 1) default).date
            ++ str ": Decent weather (" ++ natDigits rain ++ str " rainy day(s), no storm risk)")
        else none)
    cands.take 2

/-- Embeds `_generate_rejections`. -/
def generate_rejections (weather : WeatherSummary) (flights : FlightSearchResult)
    (profile : UserProfile) : List Str :=
  let r1 := if weather.storm_risk_days > 0 then
      [str "Period around " ++ weather.worst_window ++ str ": "
        ++ natDigits weather.storm_risk_days ++ str " storm-risk days. With your comfort priority of "
        ++ intStr profile.comfort_priority ++ str "/10, this window carries too much weather risk."]
    else []
  let r2 := if flights.average_price > profile.airfare_budget_hard then
      [str "Average airfare ($" ++ intStr flights.average_price
        ++ str ") exceeds your hard budget of $" ++ intStr profile.airfare_budget_hard
        ++ str ". Consider traveling on weekdays for lower fares."]
    else []
  let r3 := match weather.daily_forecasts with
    | [] => []
    | _ :: _ =>
      let hot_days := (weather.daily_forecasts.filter
        (fun f => f.high_f > profile.preferred_temp_max_f + 5)).length
      if hot_days > 3 then
        [natDigits hot_days ++ str " days forecast above "
          ++ intStr (profile.preferred_temp_max_f + 5)
          ++ str "°F, which significantly exceeds your preferred maximum of "
          ++ intStr profile.preferred_temp_max_f ++ str "°F."]
      else []
  r1 ++ r2 ++ r3

/-- The `best_start` date string of `synthesize_recommendation`:
`weather.best_window.split(" to ")[0] if " to " in weather.best_window else ""`. -/
def bestStartOf (weather : WeatherSummary) : Str :=
  if strContains (str " to ") weather.best_window
  then beforeFirst (str " to ") weather.best_window
  else []

/-- The `window_flights` list of `synthesize_recommendation`: flights
departing on/after `best_start`, capped at 5. -/
def window_flights (weather : WeatherSummary) (flights : FlightSearchResult) : List FlightOption :=
  (flights.options.filter (fun f => strLe (bestStartOf weather) f.departure_date)).take 5

/-- The flight clause of `synthesize_recommendation`'s reasoning; `min`
over a possibly-empty list is the fallible operation, so the clause is an
`Option`. -/
def flightReasoning (user_profile : UserProfile)
    (ideal_flights affordable_flights : List FlightOption) : Option Str :=
  if ideal_flights ≠ [] then
    (listMinInt (ideal_flights.map (·.price_usd))).map (fun cheapest =>
      str "Flights: Found options within your ideal budget. Best price: $"
        ++ intStr cheapest ++ str ".")
  else if affordable_flights ≠ [] then
    (listMinInt (affordable_flights.map (·.price_usd))).map (fun cheapest =>
      str "Flights: Options available within your hard budget limit. Best price: $"
        ++ intStr cheapest ++ str " (above your ideal of $"
        ++ intStr user_profile.airfare_budget_soft ++ str " but within $"
        ++ intStr user_profile.airfare_budget_hard ++ str ").")
  else some (str "Flights: ⚠ No flights found within your $"
    ++ intStr user_profile.airfare_budget_hard ++ str " budget for this window.")

/-- The hotel clause of `synthesize_recommendation`'s reasoning; indexing
`[0]` into a possibly-empty list is the fallible operation. -/
def hotelReasoning (budget_hotels brand_hotels : List HotelOption) : Option Str :=
  if brand_hotels ≠ [] then
    brand_hotels.head?.map (fun top =>
      str "Hotels: " ++ top.name ++ str " (" ++ top.brand ++ str ") at $"
        ++ intStr top.nightly_rate ++ str "/night matches your brand preference and budget.")
  else if budget_hotels ≠ [] then
    budget_hotels.head?.map (fun top =>
      str "Hotels: " ++ top.name ++ str " at $" ++ intStr top.nightly_rate
        ++ str "/night fits your budget (no preferred-brand match found in budget range).")
  else some (str "Hotels: ⚠ No options within your budget range.")

/-- Embeds `synthesize_recommendation`; `none` would correspond to an
uncaught `ValueError`/`IndexError` from `min([])` or `list[0]`. -/
def synthesize_recommendation (user_profile : UserProfile) (weather : WeatherSummary)
    (flights : FlightSearchResult) (hotels : HotelSearchResult) : Option TravelRecommendation :=
  let recommended_window := weather.best_window
  let worst_window := weather.worst_window
  let wf := window_flights weather flights
  let affordable_flights := wf.filter (fun f => f.price_usd ≤ user_profile.airfare_budget_hard)
  let ideal_flights := wf.filter (fun f => f.price_usd ≤ user_profile.airfare_budget_soft)
  let flight_ok := !affordable_flights.isEmpty
  let flight_ideal := !ideal_flights.isEmpty
  let budget_hotels := hotels.options.filter (fun h =>
    user_profile.hotel_budget_min ≤ h.nightly_rate ∧ h.nightly_rate ≤ user_profile.hotel_budget_max)
  let brand_hotels := budget_hotels.filter (fun h => h.brand ∈ user_profile.preferred_hotel_brands)
  let hotel_ok := !budget_hotels.isEmpty
  let hotel_ideal := !brand_hotels.isEmpty
  let confidence := compute_confidence weather.storm_risk_days flight_ok flight_ideal hotel_ok hotel_ideal
  let part_weather := str "Weather: The period " ++ recommended_window
    ++ str " offers the best conditions for your temperature preference ("
    ++ intStr user_profile.preferred_temp_min_f ++ str "–"
    ++ intStr user_profile.preferred_temp_max_f ++ str "°F). Average highs: "
    ++ intStr weather.avg_high_f ++ str "°F."
  let stormParts := if weather.storm_risk_days > 0 then
      [str "⚠ " ++ natDigits weather.storm_risk_days
        ++ str " days in the forecast period have storm risk. The worst period is "
        ++ worst_window ++ str " — avoid these dates."]
    else []
  (flightReasoning user_profile ideal_flights affordable_flights).bind (fun fp =>
    (hotelReasoning budget_hotels brand_hotels).map (fun hp =>
      { recommended_window := recommended_window
        confidence := confidence
        summary := str "Based on your preferences, " ++ recommended_window ++ str " is the "
          ++ (if confidence = str "High" then str "best" else str "most suitable")
          ++ str " time to visit Maui. " ++ confidence ++ str " confidence."
        reasoning := List.intercalate (str "\n") (part_weather :: stormParts ++ [fp, hp])
        alternative_windows := generate_alternatives weather flights user_profile
        rejected_options := generate_rejections weather flights user_profile
        weather_summary := weather.summary
        flight_summary := flights.summary
        hotel_summary := hotels.summary }))

/-! ## Spec-side definitions

These definitions transcribe the specification's wording (not the source)
and are compared with the source-derived definitions above. -/

/-- Modelled from the spec: the weather confidence term, `3` for zero
storm-risk days, `1` for one or two, else `0`. -/
def weatherTerm (storm_days : Nat) : Nat :=
  if storm_days = 0 then 3 else if storm_days ≤ 2 then 1 else 0

/-- Modelled from the spec: the flight confidence term, `3` if an ideal
(soft-ceiling) flight exists, `1` if only an acceptable (hard-ceiling) one
exists, else `0`. -/
def flightTerm (flight_ideal flight_ok : Bool) : Nat :=
  if flight_ideal then 3 else if flight_ok then 1 else 0

/-- Modelled from the spec: the hotel confidence term, `3` if a budget-fit
brand-matched hotel exists, `1` if only a budget-fit one exists, else `0`. -/
def hotelTerm (hotel_ideal hotel_ok : Bool) : Nat :=
  if hotel_ideal then 3 else if hotel_ok then 1 else 0

/-- Modelled from the spec: the total-to-label map, `"High"` for `≥ 7`,
`"Medium"` for `4–6`, `"Low"` for `0–3`. -/
def confLabel (total : Nat) : Str :=
  if total ≥ 7 then str "High" else if total ≥ 4 then str "Medium" else str "Low"

/-- The position of a confidence label in the ordered chain
`"Low" < "Medium" < "High"`, for stating monotonicity. -/
def confRank (s : Str) : Nat :=
  if s = str "High" then 2 else if s = str "Medium" then 1 else 0

/-- Modelled from the spec: the per-day weather score as the claim words
it, with the wind penalty and wind bonus as independent additive terms. -/
def specDayScore (profile : UserProfile) (day : DayForecast) : ℚ :=
  (if profile.preferred_temp_min_f ≤ day.high_f ∧ day.high_f ≤ profile.preferred_temp_max_f
    then 10
    else -(1.5 * ((if day.high_f < profile.preferred_temp_min_f
          then profile.preferred_temp_min_f - day.high_f
          else day.high_f - profile.preferred_temp_max_f) : ℚ)))
  + (if day.is_storm_risk then -(5 * (profile.comfort_priority : ℚ)) else 0)
  + (if day.precipitation_pct > 40 then -(3 * ((profile.comfort_priority : ℚ) / 5)) else 0)
  + (if day.wind_mph > 20 then -5 else 0)
  + (if day.wind_mph < 10 then 2 else 0)

/-! ## Concrete fixtures used by witnesses and counterexamples -/

/-- A profile with preferred range 70–80 °F and a one-night trip, used to
exercise the sliding-window scan on a two-day forecast. -/
def cexProfile : UserProfile :=
  ⟨str "Casey", 70, 80, 450, 650, 120, 250, [], 1, 3, 5⟩

/-- A day whose 90 °F high lies 10 degrees above `cexProfile`'s range. -/
def cexDayBad : DayForecast :=
  ⟨str "2025-07-10", 90, 70, str "Sunny", 20, 15, false⟩

/-- A day whose 75 °F high lies inside `cexProfile`'s range. -/
def cexDayGood : DayForecast :=
  ⟨str "2025-07-11", 75, 70, str "Sunny", 20, 15, false⟩

/-- The spec's hotel scoring scenario: rate 160, preferred brand, rating
4.3, no discount flag. -/
def scenarioHotel : HotelOption :=
  ⟨str "Scenario Hotel", str "Marriott", 160, 1120, 4.3, str "Wailea", false, none⟩

/-- A perfect day for `alexProfile`: 80 °F high, light rain chance, calm
wind, no storm. -/
def perfectDay : DayForecast :=
  ⟨str "2025-07-20", 80, 72, str "Sunny", 20, 15, false⟩

/-! ## Helper lemmas -/

/-- Folding `min` over a list starting from `x` yields an element of
`x :: xs` that is a lower bound for `x :: xs`. -/
theorem foldl_min_spec : ∀ (xs : List Int) (x : Int),
    xs.foldl min x ∈ x :: xs ∧ ∀ q ∈ x :: xs, xs.foldl min x ≤ q := by
  intro xs
  induction xs with
  | nil => intro x; simp
  | cons y ys ih =>
    intro x
    obtain ⟨hmem, hle⟩ := ih (min x y)
    rw [List.foldl_cons]
    constructor
    · rcases List.mem_cons.mp hmem with h | h
      · rw [h]
        rcases min_choice x y with hc | hc
        · rw [hc]; exact List.mem_cons_self _ _
        · rw [hc]; exact List.mem_cons_of_mem _ (List.mem_cons_self _ _)
      · exact List.mem_cons_of_mem _ (List.mem_cons_of_mem _ h)
    · intro q hq
      have hbase : ys.foldl min (min x y) ≤ min x y := hle _ (List.mem_cons_self _ _)
      rcases List.mem_cons.mp hq with h | h
      · rw [h]; exact le_trans hbase (min_le_left _ _)
      · rcases List.mem_cons.mp h with h2 | h2
        · rw [h2]; exact le_trans hbase (min_le_right _ _)
        · exact hle q (List.mem_cons_of_mem _ h2)

/-- Accumulating a mapped value by addition is summation. -/
theorem foldl_add_map (f : α → ℚ) : ∀ (l : List α) (a : ℚ),
    l.foldl (fun s x => s + f x) a = a + (l.map f).sum := by
  intro l
  induction l with
  | nil => intro a; simp
  | cons x xs ih => intro a; simp [ih, add_assoc]

/-- The source-derived per-day score agrees with the spec-worded per-day
score: the `elif` wind chain equals two independent additive terms, and
the penalty factor commutes. -/
theorem dayScore_eq_specDayScore (d : DayForecast) (p : UserProfile) :
    dayScore d p = specDayScore p d := by
  unfold dayScore specDayScore
  split_ifs <;> first | ring1 | (exfalso; omega)

/-! ## Claim theorems -/

/-- C7: applied to an empty input sequence, each of `analyze_weather`,
`analyze_flights` and `evaluate_hotels` returns a well-formed result with
zero-valued statistics and the explanatory narrative
("No forecast data available." / "No flights found." / "No hotels found."),
for every profile, destination and data-source flag; being Lean functions,
they cannot raise. -/
theorem empty_inputs_give_zero_results :
    ∀ (p : UserProfile) (dest : Str) (b : Bool),
      analyze_weather b [] p dest =
        { destination := dest, period := str "N/A", avg_high_f := 0, avg_low_f := 0,
          rainy_days := 0, storm_risk_days := 0, best_window := str "N/A",
          worst_window := str "N/A", summary := str "No forecast data available.",
          daily_forecasts := [] }
      ∧ analyze_flights [] p =
        { origin := str "N/A", destination := str "N/A", search_window := str "N/A",
          cheapest_price := 0, average_price := 0, options := [],
          summary := str "No flights found." }
      ∧ evaluate_hotels [] p =
        { destination := str "Maui, HI", check_in := str "N/A", check_out := str "N/A",
          options := [], summary := str "No hotels found." } :=
  fun _ _ _ => ⟨rfl, rfl, rfl⟩

/-- C9: `get_profile` returns the stored profile exactly when the
lowercased identifier is one of the three known keys — so the lookup is
case-insensitive — and the distinguished result `none` otherwise; it is a
total function and never invents a profile. -/
theorem get_profile_lookup_spec :
    ∀ s : Str,
      get_profile s =
        (if pyLower s = str "alex" then some alexProfile
         else if pyLower s = str "jordan" then some jordanProfile
         else if pyLower s = str "sam" then some samProfile
         else none) := by
  intro s
  simp only [get_profile, MOCK_PROFILES, List.lookup]
  by_cases h1 : pyLower s = str "alex"
  · rw [h1]; decide
  · by_cases h2 : pyLower s = str "jordan"
    · rw [h2]; decide
    · by_cases h3 : pyLower s = str "sam"
      · rw [h3]; decide
      · have e1 : (pyLower s == str "alex") = false := beq_eq_false_iff_ne.mpr h1
        have e2 : (pyLower s == str "jordan") = false := beq_eq_false_iff_ne.mpr h2
        have e3 : (pyLower s == str "sam") = false := beq_eq_false_iff_ne.mpr h3
        simp [e1, e2, e3, h1, h2, h3]

/-- C4: the hotel score is the sum of the claim's budget term, +20 brand
term, quality term `max(0, (rating − 3.0) × 12.5)` and −15 anomalous
discount term; and the spec's scenario (rate 160 in budget [120, 250],
preferred brand, rating 4.3, no discount flag) scores exactly 66.25. -/
theorem score_hotel_decomposition :
    (∀ (h : HotelOption) (p : UserProfile),
      score_hotel h p =
        (if p.hotel_budget_min ≤ h.nightly_rate ∧ h.nightly_rate ≤ p.hotel_budget_max
          then (30 : ℚ)
          else if h.nightly_rate < p.hotel_budget_min then 10
          else max 0 (25 - 0.3 * ((h.nightly_rate - p.hotel_budget_max : Int) : ℚ)))
        + (if h.brand ∈ p.preferred_hotel_brands then 20 else 0)
        + max 0 ((h.rating - 3.0) * 12.5)
        + (if h.has_storm_discount ∧ p.comfort_priority ≥ 7 then -15 else 0))
    ∧ score_hotel scenarioHotel alexProfile = 66.25 := by
  constructor
  · intro h p
    unfold score_hotel
    rw [mul_comm]
  · norm_num [score_hotel, scenarioHotel, alexProfile, max_def]

/-- C2: `_compute_confidence` is the label of the sum of three independent
terms, each in {0, 1, 3} (weather: 3 iff zero storm days, 1 iff 1–2 storm
days; flight and hotel analogous); the label map sends totals ≥ 7 to
"High", 4–6 to "Medium", ≤ 3 to "Low"; the label is monotone in the total
and hence monotone non-decreasing in each term independently. -/
theorem compute_confidence_rubric :
    ∀ (sd : Nat) (fo fi ho hi : Bool),
      compute_confidence sd fo fi ho hi
        = confLabel (weatherTerm sd + flightTerm fi fo + hotelTerm hi ho)
      ∧ (weatherTerm sd = 0 ∨ weatherTerm sd = 1 ∨ weatherTerm sd = 3)
      ∧ (flightTerm fi fo = 0 ∨ flightTerm fi fo = 1 ∨ flightTerm fi fo = 3)
      ∧ (hotelTerm hi ho = 0 ∨ hotelTerm hi ho = 1 ∨ hotelTerm hi ho = 3)
      ∧ (weatherTerm sd = 3 ↔ sd = 0)
      ∧ (weatherTerm sd = 1 ↔ 1 ≤ sd ∧ sd ≤ 2)
      ∧ (∀ t u : Nat, t ≤ u → confRank (confLabel t) ≤ confRank (confLabel u))
      ∧ (∀ t : Nat,
          (7 ≤ t → confLabel t = str "High")
          ∧ (4 ≤ t ∧ t ≤ 6 → confLabel t = str "Medium")
          ∧ (t ≤ 3 → confLabel t = str "Low"))
      ∧ (∀ sd' : Nat, weatherTerm sd ≤ weatherTerm sd' →
          confRank (compute_confidence sd fo fi ho hi)
            ≤ confRank (compute_confidence sd' fo fi ho hi))
      ∧ (∀ fo' fi' : Bool, flightTerm fi fo ≤ flightTerm fi' fo' →
          confRank (compute_confidence sd fo fi ho hi)
            ≤ confRank (compute_confidence sd fo' fi' ho hi))
      ∧ (∀ ho' hi' : Bool, hotelTerm hi ho ≤ hotelTerm hi' ho' →
          confRank (compute_confidence sd fo fi ho hi)
            ≤ confRank (compute_confidence sd fo fi ho' hi')) := by
  have hdec : ∀ (sd : Nat) (fo fi ho hi : Bool),
      compute_confidence sd fo fi ho hi
        = confLabel (weatherTerm sd + flightTerm fi fo + hotelTerm hi ho) :=
    fun _ _ _ _ _ => rfl
  have hmono : ∀ t u : Nat, t ≤ u → confRank (confLabel t) ≤ confRank (confLabel u) := by
    intro t u htu
    unfold confLabel
    split_ifs <;> first | decide | omega
  intro sd fo fi ho hi
  refine ⟨hdec sd fo fi ho hi, ?_, ?_, ?_, ?_, ?_, hmono, ?_, ?_, ?_, ?_⟩
  · unfold weatherTerm; split_ifs <;> simp
  · unfold flightTerm; split_ifs <;> simp
  · unfold hotelTerm; split_ifs <;> simp
  · unfold weatherTerm; split_ifs <;> first | omega | (simp; omega)
  · unfold weatherTerm; split_ifs <;> first | omega | (simp; omega)
  · intro t
    refine ⟨?_, ?_, ?_⟩ <;> intro h <;> unfold confLabel <;> split_ifs <;> first | rfl | omega
  · intro sd' hw
    rw [hdec, hdec]
    exact hmono _ _ (by omega)
  · intro fo' fi' hf
    rw [hdec, hdec]
    exact hmono _ _ (by omega)
  · intro ho' hi' hh
    rw [hdec, hdec]
    exact hmono _ _ (by omega)

/-- Witness for C2: the rubric theorem applied at concrete inputs — the
all-aligned call is labelled by total 9, label monotonicity at 4 ≤ 7, and
the threshold facts at totals 7, 5 and 2. -/
theorem compute_confidence_rubric_witness :
    compute_confidence 0 true true true true
      = confLabel (weatherTerm 0 + flightTerm true true + hotelTerm true true)
    ∧ confRank (confLabel 4) ≤ confRank (confLabel 7)
    ∧ confLabel 7 = str "High" ∧ confLabel 5 = str "Medium" ∧ confLabel 2 = str "Low" :=
  ⟨(compute_confidence_rubric 0 true true true true).1,
   (compute_confidence_rubric 0 true true true true).2.2.2.2.2.2.1 4 7 (by decide),
   ((compute_confidence_rubric 0 true true true true).2.2.2.2.2.2.2.1 7).1 (by decide),
   ((compute_confidence_rubric 0 true true true true).2.2.2.2.2.2.2.1 5).2.1 (by decide),
   ((compute_confidence_rubric 0 true true true true).2.2.2.2.2.2.2.1 2).2.2 (by decide)⟩

/-- C3: the window score is the sum over the window's days of the spec's
per-day score (temperature term, storm and rain penalties, wind adjustment
as independent additive terms), and a window of perfect days — high in
range, no storm flag, precipitation ≤ 40, wind in [10, 20] mph — scores
exactly `10 × windowLength`. -/
theorem score_weather_window_spec (window : List DayForecast) (p : UserProfile) :
    score_weather_window window p = (window.map (specDayScore p)).sum
    ∧ ((∀ day ∈ window,
          (p.preferred_temp_min_f ≤ day.high_f ∧ day.high_f ≤ p.preferred_temp_max_f)
          ∧ day.is_storm_risk = false ∧ day.precipitation_pct ≤ 40
          ∧ 10 ≤ day.wind_mph ∧ day.wind_mph ≤ 20) →
        score_weather_window window p = 10 * window.length) := by
  have hsum : score_weather_window window p = (window.map (specDayScore p)).sum := by
    unfold score_weather_window
    rw [foldl_add_map (fun d => dayScore d p) window 0, zero_add]
    congr 1
    exact List.map_congr_left (fun d _ => dayScore_eq_specDayScore d p)
  refine ⟨hsum, fun hperfect => ?_⟩
  rw [hsum]
  clear hsum
  induction window with
  | nil => simp
  | cons d ds ih =>
    obtain ⟨⟨htemp, hstorm, hrain, hw1, hw2⟩, hrest⟩ :=
      List.forall_mem_cons.mp hperfect
    have hd : specDayScore p d = 10 := by
      unfold specDayScore
      rw [if_pos htemp, if_neg (by simp [hstorm]), if_neg (by omega),
        if_neg (by omega), if_neg (by omega)]
      norm_num
    rw [List.map_cons, List.sum_cons, hd, ih hrest, List.length_cons]
    push_cast
    ring

/-- Witness for C3: the window-score theorem applied to a two-day window of
perfect days for `alexProfile`, giving score exactly 20. -/
theorem score_weather_window_spec_witness :
    score_weather_window [perfectDay, perfectDay] alexProfile = 10 * 2 := by
  have h := (score_weather_window_spec [perfectDay, perfectDay] alexProfile).2 (by decide)
  simpa using h

/-- The invariant of `analyze_weather`'s best-window scan: provided every
scanned score exceeds the `-999` sentinel, after `m ≥ 1` steps the loop
holds the first-encountered maximal start index and its score. -/
theorem bestLoop_spec (s : Nat → ℚ) :
    ∀ m : Nat, 0 < m → (∀ i, i < m → -999 < s i) →
      (bestLoop s m).2 < m ∧ (bestLoop s m).1 = s (bestLoop s m).2
      ∧ (∀ j, j < m → s j ≤ s (bestLoop s m).2)
      ∧ (∀ j, j < (bestLoop s m).2 → s j < s (bestLoop s m).2) := by
  intro m
  induction m with
  | zero => omega
  | succ m ih =>
    intro _ hbound
    have hsm : -999 < s m := hbound m (Nat.lt_succ_self m)
    rcases Nat.eq_zero_or_pos m with hm0 | hmpos
    · subst hm0
      have hred : bestLoop s 1 = (s 0, 0) := by
        simp only [bestLoop]
        split_ifs with h
        · rfl
        · exact absurd hsm h
      rw [hred]
      refine ⟨Nat.zero_lt_one, rfl, ?_, ?_⟩
      · intro j hj
        have hj0 : j = 0 := by omega
        rw [hj0]
      · intro j hj
        exact absurd hj (Nat.not_lt_zero j)
    · obtain ⟨hlt, heq, hmax, hfirst⟩ :=
        ih hmpos (fun i hi => hbound i (Nat.lt_succ_of_lt hi))
      by_cases hc : s m > (bestLoop s m).1
      · have hred : bestLoop s (m + 1) = (s m, m) := by
          simp only [bestLoop]
          rw [if_pos hc]
        rw [hred]
        refine ⟨Nat.lt_succ_self m, rfl, ?_, ?_⟩
        · intro j hj
          rcases Nat.lt_succ_iff_lt_or_eq.mp hj with h | h
          · exact le_of_lt (lt_of_le_of_lt (hmax j h) (heq ▸ hc))
          · rw [h]
        · intro j hj
          exact lt_of_le_of_lt (hmax j hj) (heq ▸ hc)
      · have hred : bestLoop s (m + 1) = bestLoop s m := by
          simp only [bestLoop]
          rw [if_neg hc]
        push_neg at hc
        rw [hred]
        refine ⟨Nat.lt_succ_of_lt hlt, heq, ?_, hfirst⟩
        intro j hj
        rcases Nat.lt_succ_iff_lt_or_eq.mp hj with h | h
        · exact hmax j h
        · rw [h]
          exact hc.trans_eq heq

/-- The invariant of `analyze_weather`'s worst-window scan: provided every
scanned score is below the `999` sentinel, after `m ≥ 1` steps the loop
holds the first-encountered minimal start index and its score. -/
theorem worstLoop_spec (s : Nat → ℚ) :
    ∀ m : Nat, 0 < m → (∀ i, i < m → s i < 999) →
      (worstLoop s m).2 < m ∧ (worstLoop s m).1 = s (worstLoop s m).2
      ∧ (∀ j, j < m → s (worstLoop s m).2 ≤ s j)
      ∧ (∀ j, j < (worstLoop s m).2 → s (worstLoop s m).2 < s j) := by
  intro m
  induction m with
  | zero => omega
  | succ m ih =>
    intro _ hbound
    have hsm : s m < 999 := hbound m (Nat.lt_succ_self m)
    rcases Nat.eq_zero_or_pos m with hm0 | hmpos
    · subst hm0
      have hred : worstLoop s 1 = (s 0, 0) := by
        simp only [worstLoop]
        rw [if_pos hsm]
      rw [hred]
      refine ⟨Nat.zero_lt_one, rfl, ?_, ?_⟩
      · intro j hj
        have hj0 : j = 0 := by omega
        rw [hj0]
      · intro j hj
        exact absurd hj (Nat.not_lt_zero j)
    · obtain ⟨hlt, heq, hmin, hfirst⟩ :=
        ih hmpos (fun i hi => hbound i (Nat.lt_succ_of_lt hi))
      by_cases hc : s m < (worstLoop s m).1
      · have hred : worstLoop s (m + 1) = (s m, m) := by
          simp only [worstLoop]
          rw [if_pos hc]
        rw [hred]
        refine ⟨Nat.lt_succ_self m, rfl, ?_, ?_⟩
        · intro j hj
          rcases Nat.lt_succ_iff_lt_or_eq.mp hj with h | h
          · exact le_of_lt (lt_of_lt_of_le (heq ▸ hc) (hmin j h))
          · rw [h]
        · intro j hj
          exact lt_of_lt_of_le (heq ▸ hc) (hmin j hj)
      · have hred : worstLoop s (m + 1) = worstLoop s m := by
          simp only [worstLoop]
          rw [if_neg hc]
        push_neg at hc
        rw [hred]
        refine ⟨Nat.lt_succ_of_lt hlt, heq, ?_, hfirst⟩
        intro j hj
        rcases Nat.lt_succ_iff_lt_or_eq.mp hj with h | h
        · exact hmin j h
        · rw [h]
          exact heq ▸ hc

/-- C1 (amended): when the forecast is no longer than the trip length both
windows start at index 0; when it is strictly longer, the scan covers the
start indices `0 … n - trip_len - 1` (the start index `n - trip_len` is
never scanned), and — provided every scanned window score lies strictly
between the sentinels `-999` and `999` — the best (resp. worst) start is
the first-encountered maximal (resp. minimal) start index of that range. -/
theorem analyze_weather_window_scan (forecasts : List DayForecast) (p : UserProfile) :
    (forecasts.length ≤ p.trip_length_nights → bestWorstStarts forecasts p = (0, 0))
    ∧ (p.trip_length_nights < forecasts.length →
        (∀ i, i < forecasts.length - p.trip_length_nights →
          -999 < windowScore forecasts p i ∧ windowScore forecasts p i < 999) →
        (bestWorstStarts forecasts p).1 < forecasts.length - p.trip_length_nights
        ∧ (∀ j, j < forecasts.length - p.trip_length_nights →
            windowScore forecasts p j ≤ windowScore forecasts p (bestWorstStarts forecasts p).1)
        ∧ (∀ j, j < (bestWorstStarts forecasts p).1 →
            windowScore forecasts p j < windowScore forecasts p (bestWorstStarts forecasts p).1)
        ∧ (bestWorstStarts forecasts p).2 < forecasts.length - p.trip_length_nights
        ∧ (∀ j, j < forecasts.length - p.trip_length_nights →
            windowScore forecasts p (bestWorstStarts forecasts p).2 ≤ windowScore forecasts p j)
        ∧ (∀ j, j < (bestWorstStarts forecasts p).2 →
            windowScore forecasts p (bestWorstStarts forecasts p).2 < windowScore forecasts p j)) := by
  constructor
  · intro hle
    unfold bestWorstStarts
    rw [if_pos hle]
  · intro hlt hbounds
    have hne : ¬ forecasts.length ≤ p.trip_length_nights := not_le.mpr hlt
    have hbw : bestWorstStarts forecasts p =
        ((bestLoop (windowScore forecasts p) (forecasts.length - p.trip_length_nights)).2,
         (worstLoop (windowScore forecasts p) (forecasts.length - p.trip_length_nights)).2) := by
      unfold bestWorstStarts
      rw [if_neg hne]
    have hmpos : 0 < forecasts.length - p.trip_length_nights := by omega
    obtain ⟨hb1, _, hb3, hb4⟩ := bestLoop_spec (windowScore forecasts p)
      (forecasts.length - p.trip_length_nights) hmpos (fun i hi => (hbounds i hi).1)
    obtain ⟨hw1, _, hw3, hw4⟩ := worstLoop_spec (windowScore forecasts p)
      (forecasts.length - p.trip_length_nights) hmpos (fun i hi => (hbounds i hi).2)
    rw [hbw]
    exact ⟨hb1, hb3, hb4, hw1, hw3, hw4⟩

/-- Counterexample for C1: a two-day forecast with a one-night trip has the
start indices 0 and 1, and `n - trip_length_nights = 1` lies in the claim's
inclusive scan range; the start index 1 scores strictly higher, yet
`analyze_weather`'s scan (`for i in range(n - trip_len)`) never visits it
and returns start index 0 as the best window. -/
theorem analyze_weather_window_scan_cex :
    (bestWorstStarts [cexDayBad, cexDayGood] cexProfile).1 = 0
    ∧ windowScore [cexDayBad, cexDayGood] cexProfile 0
        < windowScore [cexDayBad, cexDayGood] cexProfile 1
    ∧ ([cexDayBad, cexDayGood] : List DayForecast).length - cexProfile.trip_length_nights = 1 := by
  refine ⟨?_, ?_, by decide⟩
  · show (if windowScore [cexDayBad, cexDayGood] cexProfile 0
        > (bestLoop (windowScore [cexDayBad, cexDayGood] cexProfile) 0).1
      then (windowScore [cexDayBad, cexDayGood] cexProfile 0, 0)
      else bestLoop (windowScore [cexDayBad, cexDayGood] cexProfile) 0).2 = 0
    split_ifs <;> rfl
  · have h0 : windowScore [cexDayBad, cexDayGood] cexProfile 0 = -15 := by
      norm_num [windowScore, windowAt, score_weather_window, dayScore, cexDayBad,
        cexDayGood, cexProfile]
    have h1 : windowScore [cexDayBad, cexDayGood] cexProfile 1 = 10 := by
      norm_num [windowScore, windowAt, score_weather_window, dayScore, cexDayBad,
        cexDayGood, cexProfile]
    rw [h0, h1]
    norm_num

/-- Witness for C1: the amended scan theorem applied to the two-day
forecast, with the strict-inequality branch hypotheses discharged at the
concrete scores. -/
theorem analyze_weather_window_scan_witness :
    (bestWorstStarts [cexDayBad, cexDayGood] cexProfile).1 < 1
    ∧ ∀ j, j < 1 →
        windowScore [cexDayBad, cexDayGood] cexProfile j
          ≤ windowScore [cexDayBad, cexDayGood] cexProfile
              (bestWorstStarts [cexDayBad, cexDayGood] cexProfile).1 := by
  have hbounds : ∀ i, i < ([cexDayBad, cexDayGood] : List DayForecast).length
      - cexProfile.trip_length_nights →
      -999 < windowScore [cexDayBad, cexDayGood] cexProfile i
      ∧ windowScore [cexDayBad, cexDayGood] cexProfile i < 999 := by
    intro i hi
    have hi1 : i = 0 := by
      simp only [List.length_cons, List.length_nil, cexProfile] at hi
      omega
    subst hi1
    constructor <;>
      norm_num [windowScore, windowAt, score_weather_window, dayScore, cexDayBad,
        cexDayGood, cexProfile]
  have h := (analyze_weather_window_scan [cexDayBad, cexDayGood] cexProfile).2
    (by decide) hbounds
  exact ⟨h.1, fun j hj => h.2.1 j hj⟩

/-- C8 (amended): `analyze_weather`, made explicit in the environment flag
it reads, yields the same value on every field except the narrative
`summary` regardless of the `USE_LIVE_WEATHER` setting; the numeric
statistics, windows and echoed forecasts are pure functions of the
explicit arguments. -/
theorem analyze_weather_env_only_touches_summary :
    ∀ (b b' : Bool) (f : List DayForecast) (p : UserProfile) (d : Str),
      (analyze_weather b f p d).destination = (analyze_weather b' f p d).destination
      ∧ (analyze_weather b f p d).period = (analyze_weather b' f p d).period
      ∧ (analyze_weather b f p d).avg_high_f = (analyze_weather b' f p d).avg_high_f
      ∧ (analyze_weather b f p d).avg_low_f = (analyze_weather b' f p d).avg_low_f
      ∧ (analyze_weather b f p d).rainy_days = (analyze_weather b' f p d).rainy_days
      ∧ (analyze_weather b f p d).storm_risk_days = (analyze_weather b' f p d).storm_risk_days
      ∧ (analyze_weather b f p d).best_window = (analyze_weather b' f p d).best_window
      ∧ (analyze_weather b f p d).worst_window = (analyze_weather b' f p d).worst_window
      ∧ (analyze_weather b f p d).daily_forecasts = (analyze_weather b' f p d).daily_forecasts := by
  intro b b' f p d
  cases f <;> exact ⟨rfl, rfl, rfl, rfl, rfl, rfl, rfl, rfl, rfl⟩

/-- Counterexample for C8: with the `USE_LIVE_WEATHER` environment read
made explicit, the two environment settings produce different
`analyze_weather` results on identical explicit arguments (the summary
notes "(live data from Open-Meteo)" versus "(mock data)"), so the function
is not a pure function of its explicit arguments alone. -/
theorem analyze_weather_env_dependent_cex :
    analyze_weather true [perfectDay] alexProfile (str "Maui, HI")
      ≠ analyze_weather false [perfectDay] alexProfile (str "Maui, HI") := by
  decide

/-- Inserting into a list keeps every element; the result is a permutation
of the element consed in front. -/
theorem insertDesc_perm (key : α → ℚ) (a : α) :
    ∀ l : List α, (insertDesc key a l).Perm (a :: l) := by
  intro l
  induction l with
  | nil => exact List.Perm.refl _
  | cons b bs ih =>
    simp only [insertDesc]
    split_ifs with h
    · exact (ih.cons b).trans (List.Perm.swap a b bs)
    · exact List.Perm.refl _

/-- The stable descending sort permutes its input. -/
theorem stableSortDesc_perm (key : α → ℚ) :
    ∀ l : List α, (stableSortDesc key l).Perm l := by
  intro l
  induction l with
  | nil => exact List.Perm.refl _
  | cons a as ih =>
    exact (insertDesc_perm key a (stableSortDesc key as)).trans (ih.cons a)

/-- Insertion preserves the non-increasing-key invariant. -/
theorem insertDesc_pairwise (key : α → ℚ) (a : α) :
    ∀ l : List α, l.Pairwise (fun x y => key y ≤ key x) →
      (insertDesc key a l).Pairwise (fun x y => key y ≤ key x) := by
  intro l
  induction l with
  | nil => intro _; simp [insertDesc]
  | cons b bs ih =>
    intro hp
    obtain ⟨hb, hbs⟩ := List.pairwise_cons.mp hp
    simp only [insertDesc]
    split_ifs with h
    · refine List.pairwise_cons.mpr ⟨?_, ih hbs⟩
      intro x hx
      have hx2 : x = a ∨ x ∈ bs := by
        simpa using (insertDesc_perm key a bs).mem_iff.mp hx
      rcases hx2 with rfl | hx2
      · exact le_of_lt h
      · exact hb x hx2
    · push_neg at h
      refine List.pairwise_cons.mpr ⟨?_, hp⟩
      intro x hx
      rcases List.mem_cons.mp hx with rfl | hx2
      · exact h
      · exact le_trans (hb x hx2) h

/-- The stable descending sort is sorted by non-increasing key. -/
theorem stableSortDesc_pairwise (key : α → ℚ) :
    ∀ l : List α, (stableSortDesc key l).Pairwise (fun x y => key y ≤ key x) := by
  intro l
  induction l with
  | nil => simp [stableSortDesc]
  | cons a as ih => exact insertDesc_pairwise key a _ ih

/-- Inserting an element of key `q` puts it before every later element of
key `q`; elements of other keys leave the `q`-fiber unchanged. -/
theorem insertDesc_filter (key : α → ℚ) (q : ℚ) (a : α) :
    ∀ l : List α,
      (insertDesc key a l).filter (fun x => decide (key x = q))
        = if key a = q
          then a :: l.filter (fun x => decide (key x = q))
          else l.filter (fun x => decide (key x = q)) := by
  intro l
  induction l with
  | nil =>
    by_cases h : key a = q <;> simp [insertDesc, h]
  | cons b bs ih =>
    simp only [insertDesc]
    by_cases hab : key a < key b
    · rw [if_pos hab]
      by_cases hbq : key b = q
      · have haq : ¬ key a = q := by
          intro haq
          rw [haq, hbq] at hab
          exact lt_irrefl q hab
        simp [List.filter_cons, hbq, ih, haq]
      · simp [List.filter_cons, hbq, ih]
    · rw [if_neg hab]
      by_cases haq : key a = q <;> simp [List.filter_cons, haq]

/-- The stable descending sort preserves the original relative order of
elements with any given key: stability. -/
theorem stableSortDesc_filter (key : α → ℚ) (q : ℚ) :
    ∀ l : List α,
      (stableSortDesc key l).filter (fun x => decide (key x = q))
        = l.filter (fun x => decide (key x = q)) := by
  intro l
  induction l with
  | nil => rfl
  | cons a as ih =>
    simp only [stableSortDesc]
    rw [insertDesc_filter]
    by_cases haq : key a = q <;> simp [List.filter_cons, haq, ih]

/-- C6: the options list returned by `evaluate_hotels` is a permutation of
the input, sorted by non-increasing hotel score, and the sort is stable:
for every score value, the sub-list of hotels attaining it appears in the
output in the input's original order. -/
theorem evaluate_hotels_sorted_stable (hotels : List HotelOption) (p : UserProfile) :
    ((evaluate_hotels hotels p).options).Perm hotels
    ∧ ((evaluate_hotels hotels p).options).Pairwise
        (fun a b => score_hotel b p ≤ score_hotel a p)
    ∧ ∀ q : ℚ,
        ((evaluate_hotels hotels p).options).filter (fun h => decide (score_hotel h p = q))
          = hotels.filter (fun h => decide (score_hotel h p = q)) := by
  cases hotels with
  | nil => exact ⟨List.Perm.refl _, List.Pairwise.nil, fun _ => rfl⟩
  | cons h0 rest =>
    have hopts : (evaluate_hotels (h0 :: rest) p).options
        = stableSortDesc (fun h => score_hotel h p) (h0 :: rest) := rfl
    rw [hopts]
    exact ⟨stableSortDesc_perm _ _, stableSortDesc_pairwise _ _,
      fun q => stableSortDesc_filter _ q _⟩

/-- C5 (amended): on a non-empty flight list, `analyze_flights` keeps the
complete offered set, computes `cheapest_price` as its minimum price and
`average_price` as the floored mean over all prices (not a filtered
subset); the budget narrative is chosen by strict priority — the
under-soft-count sentence when a flight is at/under the soft ceiling, else
the under-hard fallback, else the all-exceed warning — and when every
flight exceeds both ceilings, the all-exceed warning is emitted with both
tiers empty. -/
theorem analyze_flights_stats_and_branches (fs : List FlightOption) (p : UserProfile) :
    fs ≠ [] →
      (analyze_flights fs p).options = fs
      ∧ (analyze_flights fs p).cheapest_price ∈ fs.map (fun f : FlightOption => f.price_usd)
      ∧ (∀ q ∈ fs.map (fun f : FlightOption => f.price_usd), (analyze_flights fs p).cheapest_price ≤ q)
      ∧ (analyze_flights fs p).average_price = ((fs.map (fun f : FlightOption => f.price_usd)).sum).fdiv fs.length
      ∧ (fs.filter (fun f => f.price_usd ≤ p.airfare_budget_soft) ≠ [] →
          flightBudgetNote fs p =
            natDigits (fs.filter (fun f => f.price_usd ≤ p.airfare_budget_soft)).length
              ++ str " flights are under your ideal budget of $"
              ++ intStr p.airfare_budget_soft ++ str ".")
      ∧ (fs.filter (fun f => f.price_usd ≤ p.airfare_budget_soft) = [] →
          fs.filter (fun f => f.price_usd ≤ p.airfare_budget_hard) ≠ [] →
          flightBudgetNote fs p =
            str "No flights under your ideal $" ++ intStr p.airfare_budget_soft
              ++ str ", but "
              ++ natDigits (fs.filter (fun f => f.price_usd ≤ p.airfare_budget_hard)).length
              ++ str " are within your hard limit of $"
              ++ intStr p.airfare_budget_hard ++ str ".")
      ∧ ((∀ f ∈ fs, f.price_usd > p.airfare_budget_hard ∧ f.price_usd > p.airfare_budget_soft) →
          flightBudgetNote fs p =
            str "⚠ All flights exceed your hard budget of $" ++ intStr p.airfare_budget_hard
              ++ str ". Consider adjusting dates or accepting a connection."
          ∧ fs.filter (fun f => f.price_usd ≤ p.airfare_budget_soft) = []
          ∧ fs.filter (fun f => f.price_usd ≤ p.airfare_budget_hard) = []) := by
  intro hne
  obtain ⟨f0, rest, rfl⟩ : ∃ f0 rest, fs = f0 :: rest := by
    cases fs with
    | nil => exact absurd rfl hne
    | cons f0 rest => exact ⟨f0, rest, rfl⟩
  obtain ⟨hmem, hle⟩ := foldl_min_spec (rest.map (fun f : FlightOption => f.price_usd)) f0.price_usd
  refine ⟨rfl, ?_, ?_, rfl, ?_, ?_, ?_⟩
  · simpa [List.map_cons] using hmem
  · intro q hq
    exact hle q (by simpa [List.map_cons] using hq)
  · intro hsoft
    unfold flightBudgetNote
    rw [if_pos hsoft]
  · intro hsoft hhard
    unfold flightBudgetNote
    rw [if_neg (by simpa using hsoft), if_pos hhard]
  · intro hall
    have hsoft : (f0 :: rest).filter (fun f => f.price_usd ≤ p.airfare_budget_soft) = [] := by
      rw [List.filter_eq_nil_iff]
      intro f hf
      simp only [decide_eq_true_eq, not_le]
      exact (hall f hf).2
    have hhard : (f0 :: rest).filter (fun f => f.price_usd ≤ p.airfare_budget_hard) = [] := by
      rw [List.filter_eq_nil_iff]
      intro f hf
      simp only [decide_eq_true_eq, not_le]
      exact (hall f hf).1
    refine ⟨?_, hsoft, hhard⟩
    unfold flightBudgetNote
    rw [if_neg (by simpa using hsoft), if_neg (by simpa using hhard)]

/-- A flight priced at 700, above `alexProfile`'s and `cexFlightProfile`'s
hard ceiling of 650. -/
def cexFlight : FlightOption :=
  ⟨str "Hawaiian Airlines", str "2025-07-10", str "2025-07-17", 700,
    str "08:30 AM", str "12:45 PM", 0, 5.25, false⟩

/-- A profile whose soft airfare ceiling (1000) exceeds its hard ceiling
(650); nothing in the data model forbids this. -/
def cexFlightProfile : UserProfile :=
  ⟨str "Weird", 70, 80, 1000, 650, 120, 250, [], 7, 3, 5⟩

/-- Counterexample for C5: for the profile whose soft ceiling exceeds its
hard ceiling, every offered flight is above the hard ceiling, yet the
narrative reports the under-soft-budget count instead of the claimed
all-exceed warning — the priority chain tests the soft ceiling first. -/
theorem analyze_flights_all_exceed_cex :
    (∀ f ∈ [cexFlight], f.price_usd > cexFlightProfile.airfare_budget_hard)
    ∧ flightBudgetNote [cexFlight] cexFlightProfile
        = natDigits 1 ++ str " flights are under your ideal budget of $"
          ++ intStr 1000 ++ str "."
    ∧ flightBudgetNote [cexFlight] cexFlightProfile
        ≠ str "⚠ All flights exceed your hard budget of $" ++ intStr 650
          ++ str ". Consider adjusting dates or accepting a connection." := by
  refine ⟨by decide, by decide, by decide⟩

/-- Witness for C5: the amended statistics-and-branches theorem applied to
the single 700-dollar flight under `alexProfile` (soft 450, hard 650):
every hypothesis is discharged concretely and the all-exceed warning with
empty tiers results. -/
theorem analyze_flights_stats_witness :
    (analyze_flights [cexFlight] alexProfile).options = [cexFlight]
    ∧ (analyze_flights [cexFlight] alexProfile).average_price = 700
    ∧ flightBudgetNote [cexFlight] alexProfile
        = str "⚠ All flights exceed your hard budget of $" ++ intStr 650
          ++ str ". Consider adjusting dates or accepting a connection."
    ∧ [cexFlight].filter (fun f => f.price_usd ≤ alexProfile.airfare_budget_soft) = [] := by
  obtain ⟨hopts, _, _, havg, _, _, hall⟩ :=
    analyze_flights_stats_and_branches [cexFlight] alexProfile (by decide)
  obtain ⟨hnote, hsoft, _⟩ := hall (by decide)
  refine ⟨hopts, ?_, hnote, hsoft⟩
  rw [havg]
  decide

/-- The flight clause of the synthesis reasoning always exists: each
branch's `min` is taken over a list that the branch guard proves
non-empty. -/
theorem flightReasoning_isSome (p : UserProfile) (i a : List FlightOption) :
    (flightReasoning p i a).isSome := by
  unfold flightReasoning
  split_ifs with h1 h2
  · cases i with
    | nil => exact absurd rfl h1
    | cons x xs => simp [listMinInt]
  · cases a with
    | nil => exact absurd rfl h2
    | cons x xs => simp [listMinInt]
  · rfl

/-- The hotel clause of the synthesis reasoning always exists: each
branch's `[0]` indexing is into a list that the branch guard proves
non-empty. -/
theorem hotelReasoning_isSome (budget brand : List HotelOption) :
    (hotelReasoning budget brand).isSome := by
  unfold hotelReasoning
  split_ifs with h1 h2
  · cases brand with
    | nil => exact absurd rfl h1
    | cons x xs => simp
  · cases budget with
    | nil => exact absurd rfl h2
    | cons x xs => simp
  · rfl

/-- The empty string is a lower bound for the lexicographic order. -/
theorem strLe_nil : ∀ s : Str, strLe [] s = true := by
  intro s
  cases s <;> rfl

/-- C10: `synthesize_recommendation` is total — it returns a
recommendation for every combination of profile and analysis results,
including empty flight and hotel option lists — and when the best window
carries no `" to "` separator the departure-date filter degenerates to the
empty-string lower bound, admitting every flight (capped at 5). -/
theorem synthesize_recommendation_total
    (p : UserProfile) (w : WeatherSummary) (fl : FlightSearchResult) (ho : HotelSearchResult) :
    (synthesize_recommendation p w fl ho).isSome
    ∧ (strContains (str " to ") w.best_window = false →
        window_flights w fl = fl.options.take 5) := by
  constructor
  · dsimp only [synthesize_recommendation]
    obtain ⟨fp, hfp⟩ := Option.isSome_iff_exists.mp (flightReasoning_isSome p _ _)
    rw [hfp]
    obtain ⟨hp2, hhp⟩ := Option.isSome_iff_exists.mp (hotelReasoning_isSome _ _)
    rw [Option.some_bind, hhp]
    rfl
  · intro hno
    unfold window_flights bestStartOf
    rw [if_neg (by simp [hno])]
    congr 1
    rw [List.filter_congr (fun f _ => strLe_nil f.departure_date)]
    exact List.filter_true _

/-- A weather result whose `best_window` is the sentinel `"N/A"`, which
contains no `" to "` separator. -/
def witWeather : WeatherSummary :=
  ⟨str "Maui, HI", str "N/A", 0, 0, 0, 0, str "N/A", str "N/A", str "", []⟩

/-- A flight result carrying one offered flight. -/
def witFlights : FlightSearchResult :=
  ⟨str "SFO", str "OGG", str "N/A", 700, 700, [cexFlight], str ""⟩

/-- A hotel result with no options. -/
def witHotels : HotelSearchResult :=
  ⟨str "Maui, HI", str "N/A", str "N/A", [], str ""⟩

/-- Witness for C10: the totality theorem applied at a weather result with
a separator-free best window, one flight and zero hotels. -/
theorem synthesize_recommendation_total_witness :
    (synthesize_recommendation alexProfile witWeather witFlights witHotels).isSome
    ∧ window_flights witWeather witFlights = witFlights.options.take 5 := by
  have h := synthesize_recommendation_total alexProfile witWeather witFlights witHotels
  exact ⟨h.1, h.2 (by decide)⟩

end Travel
